import Mathlib

/-!
Shallow embedding of the authorization/authentication core of the
fastapi-admin-dashboard repository: the permission table
(`app/core/permissions.py`), the token service and access guard
(`app/core/security.py`), and the login/registration endpoints
(`app/api/auth.py`).  Time is modelled as natural-number seconds;
the JWT wire format is modelled as a record carrying the claim set
together with the key it was signed with, so that signature
verification is key equality (tampering and malformed tokens are out
of the claims' scope here).  Password hashing (bcrypt via passlib) is
not translatable, so `hash` and `verify` are taken as abstract
function parameters exactly where the source calls them.
-/

namespace AdminDash

/-- The `Permission` enum of `app/core/permissions.py`. -/
inductive Permission where
  | VIEW_DASHBOARD
  | MANAGE_USERS
  | EDIT_SETTINGS
  | VIEW_LOGS
  | MANAGE_CONTENT
  | EXPORT_DATA
  | DELETE_RECORDS
  | MANAGE_ROLES
deriving DecidableEq, Repr

/-- The `Role` enum of `app/core/permissions.py` (closed set). -/
inductive Role where
  | ADMIN
  | EDITOR
  | VIEWER
deriving DecidableEq, Repr

/-- Python `Role(role)`: parse a role string, `ValueError` becomes `none`
(the `except ValueError` branches of `has_permission` / `get_user_permissions`). -/
def Role.ofString (s : String) : Option Role :=
  if s = "admin" then some .ADMIN
  else if s = "editor" then some .EDITOR
  else if s = "viewer" then some .VIEWER
  else none

/-- `set(Permission)`: every member of the `Permission` enum. -/
def allPermissions : List Permission :=
  [.VIEW_DASHBOARD, .MANAGE_USERS, .EDIT_SETTINGS, .VIEW_LOGS,
   .MANAGE_CONTENT, .EXPORT_DATA, .DELETE_RECORDS, .MANAGE_ROLES]

/-- `ROLE_PERMISSIONS` of `app/core/permissions.py`:
admin maps to `set(Permission)`, editor and viewer to their literal sets. -/
def ROLE_PERMISSIONS : Role → List Permission
  | .ADMIN => allPermissions
  | .EDITOR => [.VIEW_DASHBOARD, .MANAGE_CONTENT, .VIEW_LOGS, .EXPORT_DATA]
  | .VIEWER => [.VIEW_DASHBOARD, .VIEW_LOGS]

/-- `has_permission(role, permission)` of `app/core/permissions.py`:
parse the role string, `False` on `ValueError`, otherwise membership in
the role's permission set. -/
def has_permission (role : String) (permission : Permission) : Bool :=
  match Role.ofString role with
  | none => false
  | some roleEnum => (ROLE_PERMISSIONS roleEnum).contains permission

/-- `get_user_permissions(role)` of `app/core/permissions.py`:
empty set on `ValueError`, otherwise the role's permission set. -/
def get_user_permissions (role : String) : List Permission :=
  match Role.ofString role with
  | none => []
  | some roleEnum => ROLE_PERMISSIONS roleEnum

/-- JWT configuration fields of `Settings` in `app/config.py`, with the
source defaults.  Time-to-lives are kept in their source units (minutes,
days); seconds are derived where `timedelta` is applied. -/
structure Settings where
  SECRET_KEY : String := "your-secret-key-change-in-production"
  ACCESS_TOKEN_EXPIRE_MINUTES : Nat := 30
  REFRESH_TOKEN_EXPIRE_DAYS : Nat := 7
deriving DecidableEq, Repr

/-- The payload `data` dict passed to the token creators: the callers in
`app/api/auth.py` pass `{"sub": ..., "role": ...}` (access) and
`{"sub": ...}` (refresh). -/
structure TokenData where
  sub : Option String := none
  role : Option String := none
deriving DecidableEq, Repr

/-- A signed JWT as produced by `jose.jwt.encode`: the claim set
(`sub`, `role`, `exp`, `type`) plus the key it was signed with.
Signature verification in `decode` is equality of this key with the
verifier's key (the `ALGORITHM` setting is shared by encoder and
decoder identically, so it is folded into the key). -/
structure Token where
  sub : Option String
  role : Option String
  exp : Nat
  typ : String
  key : String
deriving DecidableEq, Repr

/-- The `jose.JWTError` outcomes relevant to this model: bad signature
and `ExpiredSignatureError` (both are subclasses of `JWTError` and are
caught together by the guard). -/
inductive JoseError where
  | invalidSignature
  | expiredSignature
deriving DecidableEq, Repr

/-- `create_access_token(data, expires_delta)` of `app/core/security.py`
at current time `now` (seconds): `exp = now + (expires_delta or
timedelta(minutes=ACCESS_TOKEN_EXPIRE_MINUTES))`, `type = "access"`,
signed with `SECRET_KEY`. -/
def create_access_token (data : TokenData) (expiresDelta : Option Nat)
    (cfg : Settings) (now : Nat) : Token :=
  { sub := data.sub
    role := data.role
    exp := now + expiresDelta.getD (cfg.ACCESS_TOKEN_EXPIRE_MINUTES * 60)
    typ := "access"
    key := cfg.SECRET_KEY }

/-- `create_refresh_token(data, expires_delta)` of `app/core/security.py`:
`exp = now + (expires_delta or timedelta(days=REFRESH_TOKEN_EXPIRE_DAYS))`,
`type = "refresh"`, signed with `SECRET_KEY`. -/
def create_refresh_token (data : TokenData) (expiresDelta : Option Nat)
    (cfg : Settings) (now : Nat) : Token :=
  { sub := data.sub
    role := data.role
    exp := now + expiresDelta.getD (cfg.REFRESH_TOKEN_EXPIRE_DAYS * 86400)
    typ := "refresh"
    key := cfg.SECRET_KEY }

/-- `jose.jwt.decode(token, key, algorithms)`: rejects a signature made
with a different key, then validates `exp` (jose raises
`ExpiredSignatureError` when `exp < now`, with zero default leeway);
on success the claim set is returned.  Note decode validates only the
registered claims — the `type` claim is returned, not checked. -/
def jwtDecode (token : Token) (key : String) (now : Nat) :
    Except JoseError Token :=
  if token.key ≠ key then .error .invalidSignature
  else if token.exp < now then .error .expiredSignature
  else .ok token

/-- An `HTTPException` as raised by the guard and the endpoints:
status code and detail string (the `WWW-Authenticate` header carries no
claim-relevant information and is omitted). -/
structure HTTPError where
  statusCode : Nat
  detail : String
deriving DecidableEq, Repr

/-- The single `credentials_exception` of `get_current_user`
(`app/core/security.py` lines 92-96), raised for every token-validation
failure and for an unknown subject alike. -/
def credentialsException : HTTPError :=
  ⟨401, "Could not validate credentials"⟩

/-- The `User` ORM model.  Modelled from the spec: `app/models/user.py`
is not under `src/`; the spec requires `User` to expose
`{id, role, isActive}` (§6, User Directory collaborator) and the
credential store to persist `(username, email, hashedPassword)`.
Registration (`app/api/auth.py`) constructs a `User` without passing
`role` or `is_active`, so the model supplies column defaults; the
spec's closed role set is `{admin, editor, viewer}` and its default
for a fresh, unprivileged registration is not named, so the default is
modelled as the least-privileged role `viewer` with an active account. -/
structure User where
  id : String
  username : String
  email : String
  hashedPassword : String
  fullName : Option String := none
  role : String := "viewer"
  isActive : Bool := true
deriving DecidableEq, Repr

/-- `get_current_user(token, db)` of `app/core/security.py`: decode the
token with `SECRET_KEY` (any `JWTError` → `credentials_exception`),
require a `sub` claim, look the subject up in the user directory
(`None` → the same `credentials_exception`), reject inactive accounts
with 403, otherwise return the user. -/
def get_current_user (token : Token) (db : List User) (cfg : Settings)
    (now : Nat) : Except HTTPError User :=
  match jwtDecode token cfg.SECRET_KEY now with
  | .error _ => .error credentialsException
  | .ok payload =>
    match payload.sub with
    | none => .error credentialsException
    | some userId =>
      match db.find? (fun u => u.id == userId) with
      | none => .error credentialsException
      | some user =>
        if !user.isActive then
          .error ⟨403, "Inactive user account"⟩
        else
          .ok user

/-- The `role_hierarchy` dict of `require_role` in
`app/core/security.py` line 129. -/
def role_hierarchy (s : String) : Option Nat :=
  if s = "admin" then some 3
  else if s = "manager" then some 2
  else if s = "viewer" then some 1
  else none

/-- `require_role(required_role)`'s `role_checker` dependency
(`app/core/security.py` lines 131-144): resolve the caller via
`get_current_user`, then compare hierarchy levels with defaults
`role_hierarchy.get(user.role, 0)` and
`role_hierarchy.get(required_role, 99)`; strictly lower caller level
is rejected with 403. -/
def require_role (requiredRole : String) (token : Token) (db : List User)
    (cfg : Settings) (now : Nat) : Except HTTPError User :=
  match get_current_user token db cfg now with
  | .error e => .error e
  | .ok user =>
    let userLevel := (role_hierarchy user.role).getD 0
    let requiredLevel := (role_hierarchy requiredRole).getD 99
    if userLevel < requiredLevel then
      .error ⟨403, "Role \x27" ++ requiredRole ++ "\x27 or higher is required"⟩
    else
      .ok user

/-- The `UserCreate` registration schema of `app/api/auth.py`
lines 31-36: username, email, password, optional full name.
It has no role field. -/
structure UserCreate where
  username : String
  email : String
  password : String
  fullName : Option String := none
deriving DecidableEq, Repr

/-- The `UserResponse` schema of `app/api/auth.py` lines 39-49. -/
structure UserResponse where
  id : String
  username : String
  email : String
  fullName : Option String
  role : String
  isActive : Bool
deriving DecidableEq, Repr

/-- The `TokenResponse` schema of `app/api/auth.py` lines 52-56. -/
structure TokenResponse where
  accessToken : Token
  refreshToken : Token
  tokenType : String := "bearer"
deriving DecidableEq, Repr

/-- The `OAuth2PasswordRequestForm` fields used by `login`. -/
structure LoginForm where
  username : String
  password : String
deriving DecidableEq, Repr

/-- `register(user_data, db)` of `app/api/auth.py` lines 59-101:
409 when username or email already exists, otherwise construct a `User`
from username, email, the hashed password and the full name — with no
role argument, so the model default applies — and return its profile.
`hash` abstracts `get_password_hash` (bcrypt) and `newId` the
database-assigned primary key. -/
def register (userData : UserCreate) (db : List User)
    (hash : String → String) (newId : String) : Except HTTPError UserResponse :=
  if db.any (fun u => u.username == userData.username || u.email == userData.email) then
    .error ⟨409, "Username or email already registered"⟩
  else
    let newUser : User :=
      { id := newId
        username := userData.username
        email := userData.email
        hashedPassword := hash userData.password
        fullName := userData.fullName }
    .ok { id := newUser.id
          username := newUser.username
          email := newUser.email
          fullName := newUser.fullName
          role := newUser.role
          isActive := newUser.isActive }

/-- `login(form_data, db)` of `app/api/auth.py` lines 104-141:
`if not user or not verify_password(...)` raises one identical 401 for
a missing username and for a wrong password; an inactive account gets
403; otherwise an access token carrying `{sub, role}` and a refresh
token carrying `{sub}` are issued.  `verify` abstracts
`verify_password` (bcrypt). -/
def login (formData : LoginForm) (db : List User)
    (verify : String → String → Bool) (cfg : Settings) (now : Nat) :
    Except HTTPError TokenResponse :=
  match db.find? (fun u => u.username == formData.username) with
  | none => .error ⟨401, "Incorrect username or password"⟩
  | some user =>
    if !verify formData.password user.hashedPassword then
      .error ⟨401, "Incorrect username or password"⟩
    else if !user.isActive then
      .error ⟨403, "Account is deactivated"⟩
    else
      .ok { accessToken :=
              create_access_token { sub := some user.id, role := some user.role }
                (some (cfg.ACCESS_TOKEN_EXPIRE_MINUTES * 60)) cfg now
            refreshToken :=
              create_refresh_token { sub := some user.id } none cfg now }

/-! ## Theorems -/

/-- Every role string is mapped by `role_hierarchy` (with the guard's
default 0 for unknown roles) to a level of at most 3. -/
theorem role_hierarchy_getD_le_three (s : String) :
    (role_hierarchy s).getD 0 ≤ 3 := by
  unfold role_hierarchy
  split
  · simp
  · split
    · simp
    · split <;> simp

/-- Claim C1: a refresh token presented to `get_current_user` is claimed
to be rejected for its kind; the code never inspects the `type` claim,
so a validly signed, unexpired refresh token whose subject exists is
accepted outright: evaluation of the guard at such a token returns the
user, not an error. -/
theorem C1_refresh_token_accepted_as_access :
    get_current_user
      (create_refresh_token { sub := some "1" } none ({} : Settings) 0)
      [{ id := "1", username := "alice", email := "a@x.com", hashedPassword := "h" }]
      ({} : Settings) 0
      = .ok { id := "1", username := "alice", email := "a@x.com", hashedPassword := "h" } := by
  rfl

/-- Claim C2: the claim maps the role `editor` to level 2 and grants an
editor every requirement at level 2 or below; the code's
`role_hierarchy` has no `editor` entry, so an active editor with a
valid access token is rejected with 403 both at the level-1 requirement
`viewer` and at the level-2 requirement `manager`. -/
theorem C2_editor_rejected_below_level_two :
    require_role "viewer"
      (create_access_token { sub := some "2", role := some "editor" } none ({} : Settings) 0)
      [{ id := "2", username := "eve", email := "e@x.com", hashedPassword := "h", role := "editor" }]
      ({} : Settings) 0
      = .error ⟨403, "Role \x27viewer\x27 or higher is required"⟩ ∧
    require_role "manager"
      (create_access_token { sub := some "2", role := some "editor" } none ({} : Settings) 0)
      [{ id := "2", username := "eve", email := "e@x.com", hashedPassword := "h", role := "editor" }]
      ({} : Settings) 0
      = .error ⟨403, "Role \x27manager\x27 or higher is required"⟩ := by
  exact ⟨rfl, rfl⟩

/-- Claim C3: round-trip — an access token issued at `t0` for subject
`s` and role `r`, validated at `t0` with the same configuration,
decodes successfully and its claim set carries `sub = s` and
`role = r`. -/
theorem C3_access_token_round_trip (s r : String) (cfg : Settings) (t0 : Nat) :
    ∃ p, jwtDecode (create_access_token { sub := some s, role := some r } none cfg t0)
          cfg.SECRET_KEY t0 = .ok p ∧ p.sub = some s ∧ p.role = some r := by
  refine ⟨create_access_token { sub := some s, role := some r } none cfg t0, ?_, rfl, rfl⟩
  simp [jwtDecode, create_access_token]

/-- Claim C4: for every role string outside the closed set
`{admin, editor, viewer}`, `has_permission` returns `false` for every
permission and `get_user_permissions` returns the empty set; both are
total functions, so no input raises. -/
theorem C4_unknown_role_fails_closed (s : String)
    (h : s ≠ "admin" ∧ s ≠ "editor" ∧ s ≠ "viewer") :
    (∀ p : Permission, has_permission s p = false) ∧
    get_user_permissions s = [] := by
  obtain ⟨h1, h2, h3⟩ := h
  constructor
  · intro p
    simp [has_permission, Role.ofString, h1, h2, h3]
  · simp [get_user_permissions, Role.ofString, h1, h2, h3]

/-- Witness for C4 at the concrete unknown role string `superuser`. -/
theorem C4_unknown_role_fails_closed_witness :
    (("superuser" : String) ≠ "admin" ∧ ("superuser" : String) ≠ "editor" ∧
      ("superuser" : String) ≠ "viewer") ∧
    ((∀ p : Permission, has_permission "superuser" p = false) ∧
      get_user_permissions "superuser" = []) :=
  ⟨by decide, C4_unknown_role_fails_closed "superuser" (by decide)⟩

/-- Claim C5: `has_permission` (a function, hence deterministic) matches
the fixed table: admin has every permission, editor exactly
`{view_dashboard, manage_content, view_logs, export_data}`, viewer
exactly `{view_dashboard, view_logs}`. -/
theorem C5_permission_table (p : Permission) :
    has_permission "admin" p = true ∧
    (has_permission "editor" p = true ↔
      p = .VIEW_DASHBOARD ∨ p = .MANAGE_CONTENT ∨ p = .VIEW_LOGS ∨ p = .EXPORT_DATA) ∧
    (has_permission "viewer" p = true ↔
      p = .VIEW_DASHBOARD ∨ p = .VIEW_LOGS) := by
  cases p <;> decide

/-- Claim C6: a token issued at `t0` with time-to-live `ttl` seconds —
access or refresh — fails validation with the expiration error at every
time strictly after `t0 + ttl`, and the guard then rejects it for any
user directory. -/
theorem C6_expired_after_ttl (data : TokenData) (cfg : Settings)
    (t0 ttl t : Nat) (h : t0 + ttl < t) :
    jwtDecode (create_access_token data (some ttl) cfg t0) cfg.SECRET_KEY t
      = .error .expiredSignature ∧
    jwtDecode (create_refresh_token data (some ttl) cfg t0) cfg.SECRET_KEY t
      = .error .expiredSignature ∧
    ∀ db : List User,
      get_current_user (create_access_token data (some ttl) cfg t0) db cfg t
        = .error credentialsException := by
  have hacc : jwtDecode (create_access_token data (some ttl) cfg t0) cfg.SECRET_KEY t
      = .error .expiredSignature := by
    simp [jwtDecode, create_access_token, h]
  refine ⟨hacc, ?_, ?_⟩
  · simp [jwtDecode, create_refresh_token, h]
  · intro db
    unfold get_current_user
    rw [hacc]

/-- Witness for C6 at `t0 = 0`, `ttl = 60`, validated at `t = 61`. -/
theorem C6_expired_after_ttl_witness :
    0 + 60 < 61 ∧
    (jwtDecode (create_access_token {} (some 60) ({} : Settings) 0)
        (Settings.SECRET_KEY {}) 61 = .error .expiredSignature ∧
      jwtDecode (create_refresh_token {} (some 60) ({} : Settings) 0)
        (Settings.SECRET_KEY {}) 61 = .error .expiredSignature ∧
      ∀ db : List User,
        get_current_user (create_access_token {} (some 60) ({} : Settings) 0) db
          ({} : Settings) 61 = .error credentialsException) :=
  ⟨by decide, C6_expired_after_ttl {} {} 0 60 61 (by decide)⟩

/-- Claim C7: a validly signed, unexpired token whose subject is missing
from the user directory is rejected by `get_current_user` with exactly
the same error — status 401, detail `Could not validate credentials` —
as a token whose signature does not verify: both return the single
`credentialsException` value, so the two failure causes are
observationally indistinguishable. -/
theorem C7_unknown_subject_indistinguishable (tok bad : Token)
    (db : List User) (cfg : Settings) (now : Nat) (uid : String)
    (hkey : tok.key = cfg.SECRET_KEY) (hexp : ¬ tok.exp < now)
    (hsub : tok.sub = some uid) (hmiss : ∀ u ∈ db, u.id ≠ uid)
    (hbad : bad.key ≠ cfg.SECRET_KEY) :
    get_current_user tok db cfg now = .error credentialsException ∧
    get_current_user bad db cfg now = .error credentialsException := by
  have hfind : db.find? (fun u => u.id == uid) = none := by
    rw [List.find?_eq_none]
    intro u hu
    simp [hmiss u hu]
  constructor
  · simp [get_current_user, jwtDecode, hkey, hexp, hsub, hfind]
  · simp [get_current_user, jwtDecode, hbad]

/-- Witness for C7: an unexpired token for the absent subject `9` and a
token signed with the wrong key, against a directory holding only the
user with id `1`. -/
theorem C7_unknown_subject_indistinguishable_witness :
    ((⟨some "9", none, 100, "access", "your-secret-key-change-in-production"⟩ : Token).key
        = (Settings.SECRET_KEY {}) ∧
      ¬ (⟨some "9", none, 100, "access", "your-secret-key-change-in-production"⟩ : Token).exp < 50 ∧
      (⟨some "9", none, 100, "access", "your-secret-key-change-in-production"⟩ : Token).sub
        = some "9" ∧
      (∀ u ∈ [({ id := "1", username := "alice", email := "a@x.com",
                 hashedPassword := "h" } : User)], u.id ≠ "9") ∧
      (⟨some "9", none, 100, "access", "wrong-key"⟩ : Token).key ≠ (Settings.SECRET_KEY {})) ∧
    (get_current_user ⟨some "9", none, 100, "access", "your-secret-key-change-in-production"⟩
        [{ id := "1", username := "alice", email := "a@x.com", hashedPassword := "h" }]
        ({} : Settings) 50 = .error credentialsException ∧
      get_current_user ⟨some "9", none, 100, "access", "wrong-key"⟩
        [{ id := "1", username := "alice", email := "a@x.com", hashedPassword := "h" }]
        ({} : Settings) 50 = .error credentialsException) :=
  ⟨⟨by decide, by decide, by decide, by decide, by decide⟩,
    C7_unknown_subject_indistinguishable
      ⟨some "9", none, 100, "access", "your-secret-key-change-in-production"⟩
      ⟨some "9", none, 100, "access", "wrong-key"⟩
      [{ id := "1", username := "alice", email := "a@x.com", hashedPassword := "h" }]
      {} 50 "9" (by decide) (by decide) (by decide) (by decide) (by decide)⟩

/-- Claim C8: every login attempt that fails authentication — the
username absent from the directory, or present with a password the
verifier rejects — returns the one fixed error
`401 Incorrect username or password`, identical in both cases, so the
response never reveals which field was wrong. -/
theorem C8_login_generic_error (formData : LoginForm) (db : List User)
    (verify : String → String → Bool) (cfg : Settings) (now : Nat)
    (h : ∀ u, db.find? (fun v => v.username == formData.username) = some u →
         verify formData.password u.hashedPassword = false) :
    login formData db verify cfg now
      = .error ⟨401, "Incorrect username or password"⟩ := by
  unfold login
  cases hf : db.find? (fun v => v.username == formData.username) with
  | none => rfl
  | some u => simp [h u hf]

/-- Witness for C8: once with an unknown username against an empty
directory, once with a known username and a rejecting verifier — the
same error value results. -/
theorem C8_login_generic_error_witness :
    login ⟨"ghost", "pw"⟩ [] (fun _ _ => false) ({} : Settings) 0
      = .error ⟨401, "Incorrect username or password"⟩ ∧
    login ⟨"alice", "pw"⟩
      [{ id := "1", username := "alice", email := "a@x.com", hashedPassword := "h" }]
      (fun _ _ => false) ({} : Settings) 0
      = .error ⟨401, "Incorrect username or password"⟩ :=
  ⟨C8_login_generic_error ⟨"ghost", "pw"⟩ [] (fun _ _ => false) {} 0
      (by intro u hu; simp at hu),
    C8_login_generic_error ⟨"alice", "pw"⟩
      [{ id := "1", username := "alice", email := "a@x.com", hashedPassword := "h" }]
      (fun _ _ => false) {} 0 (by intro u hu; rfl)⟩

/-- Claim C9: a `require_role` requirement outside the hierarchy table
`{admin, manager, viewer}` defaults to level 99, so it never grants
access to any caller, and every caller who passes `get_current_user` —
including an admin at level 3 — is rejected with the 403 error. -/
theorem C9_unknown_requirement_rejects_all (requiredRole : String)
    (h : requiredRole ≠ "admin" ∧ requiredRole ≠ "manager" ∧ requiredRole ≠ "viewer")
    (token : Token) (db : List User) (cfg : Settings) (now : Nat) :
    (∀ user, require_role requiredRole token db cfg now ≠ .ok user) ∧
    (∀ user, get_current_user token db cfg now = .ok user →
      require_role requiredRole token db cfg now =
        .error ⟨403, "Role \x27" ++ requiredRole ++ "\x27 or higher is required"⟩) := by
  obtain ⟨h1, h2, h3⟩ := h
  have hreq : (role_hierarchy requiredRole).getD 99 = 99 := by
    simp [role_hierarchy, h1, h2, h3]
  have hfor : ∀ user : User, get_current_user token db cfg now = .ok user →
      require_role requiredRole token db cfg now =
        .error ⟨403, "Role \x27" ++ requiredRole ++ "\x27 or higher is required"⟩ := by
    intro user hg
    have hu : (role_hierarchy user.role).getD 0 < 99 :=
      lt_of_le_of_lt (role_hierarchy_getD_le_three user.role) (by decide)
    unfold require_role
    rw [hg]
    simp [hreq, hu]
  refine ⟨?_, hfor⟩
  intro user
  cases hg : get_current_user token db cfg now with
  | error e =>
    unfold require_role
    rw [hg]
    simp
  | ok u =>
    rw [hfor u hg]
    simp

/-- Witness for C9: the unknown requirement `superuser` rejects even an
active admin presenting a valid access token. -/
theorem C9_unknown_requirement_rejects_all_witness :
    (("superuser" : String) ≠ "admin" ∧ ("superuser" : String) ≠ "manager" ∧
      ("superuser" : String) ≠ "viewer") ∧
    ((∀ user, require_role "superuser"
        (create_access_token { sub := some "3", role := some "admin" } none ({} : Settings) 0)
        [{ id := "3", username := "root", email := "r@x.com", hashedPassword := "h",
           role := "admin" }] ({} : Settings) 0 ≠ .ok user) ∧
      (∀ user, get_current_user
          (create_access_token { sub := some "3", role := some "admin" } none ({} : Settings) 0)
          [{ id := "3", username := "root", email := "r@x.com", hashedPassword := "h",
             role := "admin" }] ({} : Settings) 0 = .ok user →
        require_role "superuser"
          (create_access_token { sub := some "3", role := some "admin" } none ({} : Settings) 0)
          [{ id := "3", username := "root", email := "r@x.com", hashedPassword := "h",
             role := "admin" }] ({} : Settings) 0 =
          .error ⟨403, "Role \x27" ++ "superuser" ++ "\x27 or higher is required"⟩)) :=
  ⟨by decide,
    C9_unknown_requirement_rejects_all "superuser" (by decide)
      (create_access_token { sub := some "3", role := some "admin" } none ({} : Settings) 0)
      [{ id := "3", username := "root", email := "r@x.com", hashedPassword := "h",
         role := "admin" }] {} 0⟩

/-- Claim C10: `UserCreate` carries no role field and `register` builds
the `User` without passing one, so the created account's role is the
model default, identical across any two successful registrations
regardless of payload, directory, hash function or assigned id — and it
is never `admin`. -/
theorem C10_registration_role_independent (d1 d2 : UserCreate)
    (db1 db2 : List User) (hash1 hash2 : String → String) (id1 id2 : String)
    (r1 r2 : UserResponse)
    (h1 : register d1 db1 hash1 id1 = .ok r1)
    (h2 : register d2 db2 hash2 id2 = .ok r2) :
    r1.role = r2.role ∧ r1.role ≠ "admin" := by
  have hrole : ∀ (d : UserCreate) (db : List User) (hash : String → String)
      (i : String) (r : UserResponse), register d db hash i = .ok r → r.role = "viewer" := by
    intro d db hash i r hr
    unfold register at hr
    split at hr
    · simp at hr
    · cases hr
      rfl
  rw [hrole d1 db1 hash1 id1 r1 h1, hrole d2 db2 hash2 id2 r2 h2]
  exact ⟨rfl, by decide⟩

/-- Witness for C10: two concrete registrations with different payloads,
hash functions and ids produce the same non-admin role. -/
theorem C10_registration_role_independent_witness :
    register ⟨"alice", "a@x.com", "pw", none⟩ [] (fun _ => "hh") "1"
      = .ok ⟨"1", "alice", "a@x.com", none, "viewer", true⟩ ∧
    register ⟨"bob", "b@x.com", "other", some "Bob"⟩ [] (fun _ => "kk") "2"
      = .ok ⟨"2", "bob", "b@x.com", some "Bob", "viewer", true⟩ ∧
    ((⟨"1", "alice", "a@x.com", none, "viewer", true⟩ : UserResponse).role
        = (⟨"2", "bob", "b@x.com", some "Bob", "viewer", true⟩ : UserResponse).role ∧
      (⟨"1", "alice", "a@x.com", none, "viewer", true⟩ : UserResponse).role ≠ "admin") :=
  ⟨rfl, rfl,
    C10_registration_role_independent
      ⟨"alice", "a@x.com", "pw", none⟩ ⟨"bob", "b@x.com", "other", some "Bob"⟩
      [] [] (fun _ => "hh") (fun _ => "kk") "1" "2"
      ⟨"1", "alice", "a@x.com", none, "viewer", true⟩
      ⟨"2", "bob", "b@x.com", some "Bob", "viewer", true⟩ rfl rfl⟩

end AdminDash
